import Mathlib

/-!
Verification development for the on-chain verification-record client
(`src/solana_program.rs`).  The Rust module is shallowly embedded: byte
buffers are `List Nat` (each entry a byte value), strings travelling in
borsh payloads are their raw byte lists, machine integers are `Nat`
(values read from at most 8 bytes stay below 2^64, so no overflow
arithmetic arises), and every fallible step returns `Except`/`Option`.
Network, filesystem and terminal effects are supplied by an explicit
environment record so the control flow of the Rust functions can be
reproduced as pure functions.
-/

namespace SolanaVerify

/-- A Solana public key: 32 raw bytes (`solana_sdk::pubkey::Pubkey`). -/
structure Pubkey where
  bytes : List Nat
deriving DecidableEq, Repr

/-- A keypair; only its public half is observable in this module
(`solana_sdk::signature::Keypair`). -/
structure Keypair where
  pubkey : Pubkey
deriving DecidableEq, Repr

/-- Byte list of an ASCII string literal. -/
def strBytes (s : String) : List Nat := s.data.map Char.toNat

/-- The hard-coded verify program id, base58 decoding of the source constant
OTTER_VERIFY_PROGRAMID = "verifycLy8mB96wd9wqq3WDXQwM4oU6r42Th37Db9fC". -/
def otterVerifyProgramId : Pubkey :=
  ⟨[13, 190, 150, 146, 90, 190, 191, 215, 213, 103, 13, 31, 219, 65, 103, 86,
    193, 177, 70, 152, 175, 229, 169, 140, 0, 153, 41, 133, 85, 52, 146, 23]⟩

/-- The hard-coded trusted attestor, base58 decoding of the source constant
OTTER_SIGNER = "9VWiUUhgNoRwTH5NVehYJEDwcotwYX3VgW4MChiHPAqU". -/
def otterSigner : Pubkey :=
  ⟨[126, 43, 91, 100, 17, 152, 203, 163, 61, 139, 11, 24, 81, 79, 46, 155,
    224, 221, 83, 160, 126, 253, 110, 217, 167, 234, 172, 41, 181, 30, 99, 207]⟩

/-- The system program id `system_program::ID` ("11111111111111111111111111111111"),
i.e. 32 zero bytes. -/
def systemProgramId : Pubkey := ⟨List.replicate 32 0⟩

/-- `InputParams` from the source: the client-controlled subset of the record.
Strings are modelled by their UTF-8 byte lists. -/
structure InputParams where
  version : List Nat
  git_url : List Nat
  commit : List Nat
  args : List (List Nat)
  deployed_slot : Nat
deriving DecidableEq, Repr

/-- `OtterVerifyInstructions` from the source. -/
inductive OtterVerifyInstructions where
  | Initialize
  | Update
  | Close
deriving DecidableEq, Repr

/-- `get_discriminant`: the 8-byte Anchor discriminant of each instruction,
copied from the source. -/
def OtterVerifyInstructions.get_discriminant : OtterVerifyInstructions → List Nat
  | .Initialize => [175, 175, 109, 31, 13, 152, 155, 237]
  | .Update => [219, 200, 88, 176, 158, 63, 253, 127]
  | .Close => [98, 165, 201, 177, 108, 65, 206, 96]

/-- Little-endian 4-byte encoding of a u32 (borsh length prefix). -/
def u32le (n : Nat) : List Nat :=
  [n % 256, n / 256 % 256, n / 65536 % 256, n / 16777216 % 256]

/-- Little-endian 8-byte encoding of a u64 (borsh). -/
def u64le (n : Nat) : List Nat :=
  [n % 256, n / 256 % 256, n / 65536 % 256, n / 16777216 % 256,
   n / 4294967296 % 256, n / 1099511627776 % 256,
   n / 281474976710656 % 256, n / 72057594037927936 % 256]

/-- Borsh serialization of a string: 4-byte little-endian length prefix,
then the raw bytes. -/
def serString (s : List Nat) : List Nat := u32le s.length ++ s

/-- Borsh serialization of a `Vec<String>`: 4-byte little-endian count,
then each element in order. -/
def serVecString (v : List (List Nat)) : List Nat :=
  u32le v.length ++ (v.map serString).flatten

/-- Borsh serialization of `InputParams` (`borsh::to_vec`): the fields in
declaration order, no padding. -/
def serializeInputParams (p : InputParams) : List Nat :=
  serString p.version ++ serString p.git_url ++ serString p.commit ++
    serVecString p.args ++ u64le p.deployed_slot

/-- `create_ix_data`: the instruction discriminant followed by the borsh
serialization of the params. -/
def create_ix_data (params : InputParams) (ix : OtterVerifyInstructions) : List Nat :=
  ix.get_discriminant ++ serializeInputParams params

/-- The `ix_data` computation in `process_otter_verify_ixs` (lines 128-132):
every instruction except `Close` carries the serialized params; `Close`
carries the discriminant alone. -/
def ixDataFor (params : InputParams) (ix : OtterVerifyInstructions) : List Nat :=
  if ix = OtterVerifyInstructions.Close then ix.get_discriminant
  else create_ix_data params ix

/-- The mainnet endpoint constant from `upload_program`. -/
def mainnetUrl : String := "https://api.mainnet-beta.solana.com"

/-- The devnet endpoint constant from `upload_program`. -/
def devnetUrl : String := "https://api.devnet.solana.com"

/-- The localhost endpoint constant from `upload_program`. -/
def localUrl : String := "http://localhost:8899"

/-- The `connection` match in `upload_program` (lines 190-196): the Rust
`match connection_url.as_deref()` tests the arms in order, so the three
aliases are tried before the verbatim catch-all, and `None` falls back to
the config URL. -/
def resolveEndpoint (sel : Option String) (cfgUrl : String) : String :=
  match sel with
  | none => cfgUrl
  | some s =>
    if s = "m" then mainnetUrl
    else if s = "d" then devnetUrl
    else if s = "l" then localUrl
    else s

/-- `OtterBuildParams` from the source: the on-chain attestation record. -/
structure OtterBuildParams where
  address : Pubkey
  signer : Pubkey
  version : List Nat
  git_url : List Nat
  commit : List Nat
  args : List (List Nat)
  deployed_slot : Nat
  bump : Nat
deriving DecidableEq, Repr

/-- Read exactly `n` bytes from the front of the buffer; borsh fails when
fewer are available. -/
def readBytes (n : Nat) (bs : List Nat) : Option (List Nat × List Nat) :=
  if n ≤ bs.length then some (bs.take n, bs.drop n) else none

/-- Value of a little-endian byte list. -/
def leValue : List Nat → Nat
  | [] => 0
  | b :: rest => b + 256 * leValue rest

/-- Borsh read of a u32: 4 little-endian bytes. -/
def readU32 (bs : List Nat) : Option (Nat × List Nat) :=
  (readBytes 4 bs).map fun p => (leValue p.1, p.2)

/-- Borsh read of a u64: 8 little-endian bytes. -/
def readU64 (bs : List Nat) : Option (Nat × List Nat) :=
  (readBytes 8 bs).map fun p => (leValue p.1, p.2)

/-- Borsh read of a u8. -/
def readU8 (bs : List Nat) : Option (Nat × List Nat) :=
  (readBytes 1 bs).map fun p => (leValue p.1, p.2)

/-- Borsh read of a string: u32 length then that many bytes. -/
def readString (bs : List Nat) : Option (List Nat × List Nat) :=
  (readU32 bs).bind fun p => readBytes p.1 p.2

/-- Borsh read of `n` consecutive strings. -/
def readStrings : Nat → List Nat → Option (List (List Nat) × List Nat)
  | 0, bs => some ([], bs)
  | n + 1, bs =>
    (readString bs).bind fun p =>
      (readStrings n p.2).map fun q => (p.1 :: q.1, q.2)

/-- Borsh read of a `Vec<String>`: u32 count then the elements. -/
def readVecString (bs : List Nat) : Option (List (List Nat) × List Nat) :=
  (readU32 bs).bind fun p => readStrings p.1 p.2

/-- Borsh deserialization of `OtterBuildParams`: the fields in declaration
order; returns the value and the unconsumed remainder. -/
def deserOtterBuildParams (bs : List Nat) : Option (OtterBuildParams × List Nat) :=
  (readBytes 32 bs).bind fun p1 =>
  (readBytes 32 p1.2).bind fun p2 =>
  (readString p2.2).bind fun p3 =>
  (readString p3.2).bind fun p4 =>
  (readString p4.2).bind fun p5 =>
  (readVecString p5.2).bind fun p6 =>
  (readU64 p6.2).bind fun p7 =>
  (readU8 p7.2).map fun p8 =>
  ({ address := ⟨p1.1⟩, signer := ⟨p2.1⟩, version := p3.1, git_url := p4.1,
     commit := p5.1, args := p6.1, deployed_slot := p7.1, bump := p8.1 }, p8.2)

/-- `OtterBuildParams::try_from_slice`: borsh deserialization that also
requires the whole buffer to be consumed. -/
def tryFromSlice (bs : List Nat) : Option OtterBuildParams :=
  match deserOtterBuildParams bs with
  | some (v, []) => some v
  | _ => none

/-- The account loop of `get_all_pdas_available` (lines 350-356), applied to
the account list the RPC collaborator returned.  The Rust body slices
`&account.1.data[8..]`, which panics when the data holds fewer than 8
bytes; `none` models that panic.  Otherwise each account whose remainder
deserializes is kept, in order, and the rest are dropped. -/
def collectPdas : List (Pubkey × List Nat) → Option (List (Pubkey × OtterBuildParams))
  | [] => some []
  | (pk, data) :: rest =>
    if data.length < 8 then none
    else
      match tryFromSlice (data.drop 8) with
      | some p => (collectPdas rest).map fun l => (pk, p) :: l
      | none => collectPdas rest

/-- `AccountMeta`: account reference inside an instruction.
`AccountMeta::new` marks writable, `new_readonly` read-only. -/
structure AccountMeta where
  pubkey : Pubkey
  is_signer : Bool
  is_writable : Bool
deriving DecidableEq, Repr

/-- A single instruction (`solana_sdk::instruction::Instruction`). -/
structure Instruction where
  program_id : Pubkey
  data : List Nat
  accounts : List AccountMeta
deriving DecidableEq, Repr

/-- A transaction message: the wrapped instructions and the fee payer
(`Message::new(&[ix], Some(&signer_pubkey))`). -/
structure Message where
  instructions : List Instruction
  payer : Option Pubkey
deriving DecidableEq, Repr

/-- A built transaction about to be signed and sent: its message and the
key that signs it (`tx.sign(&[&signer], ...)`). -/
structure Submission where
  message : Message
  signer : Pubkey
deriving DecidableEq, Repr

/-- Error taxonomy of the module: every `anyhow` failure path, tagged by
its origin. -/
inductive CliErr where
  | config (msg : String)
  | keypairLoad (msg : String)
  | upstreamLookup (msg : String)
  | blockhash (msg : String)
  | sendFailed
  | noAttestationFound (signer program : Pubkey)
  | derivePanic
deriving DecidableEq, Repr

/-- The effectful collaborators of the module, supplied as pure data: the
local CLI config (`get_user_config` yields the default keypair and the
config RPC URL), keypair loading from a path, account existence on chain
(`get_account(...).is_ok()`), the off-chain deployed-slot lookup keyed by
(rpc url, program id), the latest blockhash, transaction sending, the two
interactive prompts, the SHA-256 oracle and the ed25519 on-curve test used
by PDA derivation, and the compile-time package version string. -/
structure Env where
  userConfig : Except String (Keypair × String)
  keypairFromPath : String → Except String Keypair
  accountExists : Pubkey → Bool
  lastDeployedSlot : String → Pubkey → Except String Nat
  latestBlockhash : Except String (List Nat)
  sendTx : Submission → List Nat → Except String (List Nat)
  prompt1 : Bool
  prompt2 : Bool
  hash : List Nat → List Nat
  isOnCurve : List Nat → Bool
  pkgVersion : List Nat

/-- The marker bytes appended by `Pubkey::create_program_address`. -/
def pdaMarker : List Nat := strBytes "ProgramDerivedAddress"

/-- `Pubkey::create_program_address` over abstract SHA-256 and curve
oracles: hash the concatenated seeds, program id and marker; reject
addresses that lie on the ed25519 curve. -/
def createProgramAddress (hash : List Nat → List Nat) (isOnCurve : List Nat → Bool)
    (seeds : List (List Nat)) (programId : Pubkey) : Option Pubkey :=
  let h := hash (seeds.flatten ++ programId.bytes ++ pdaMarker)
  if isOnCurve h then none else some ⟨h⟩

/-- The bump search of `Pubkey::find_program_address`: bumps are tried from
255 downwards, appended as a single extra one-byte seed, and the first
off-curve address wins. -/
def findProgramAddressAux (hash : List Nat → List Nat) (isOnCurve : List Nat → Bool)
    (seeds : List (List Nat)) (programId : Pubkey) : Nat → Option (Pubkey × Nat)
  | 0 =>
    (createProgramAddress hash isOnCurve (seeds ++ [[0]]) programId).map fun a => (a, 0)
  | b + 1 =>
    match createProgramAddress hash isOnCurve (seeds ++ [[b + 1]]) programId with
    | some a => some (a, b + 1)
    | none => findProgramAddressAux hash isOnCurve seeds programId b

/-- `Pubkey::find_program_address(seeds, program_id)`; `none` models the
panic when no bump yields an off-curve address. -/
def derivePda (hash : List Nat → List Nat) (isOnCurve : List Nat → Bool)
    (seeds : List (List Nat)) (programId : Pubkey) : Option (Pubkey × Nat) :=
  findProgramAddressAux hash isOnCurve seeds programId 255

/-- The seed tuple built at all three derivation sites (upload candidate A,
upload candidate B, close): the literal tag, the seed signer bytes, the
verified program bytes. -/
def attestationSeeds (seedSigner program : Pubkey) : List (List Nat) :=
  [strBytes "otter_verify", seedSigner.bytes, program.bytes]

/-- The `accounts_meta_vec` built in `process_otter_verify_ixs`
(lines 135-143): writable record account, signing signer, read-only
verified program, plus the system program except for `Close`. -/
def accountsMetaVec (pda signerPk program : Pubkey)
    (ix : OtterVerifyInstructions) : List AccountMeta :=
  let base := [⟨pda, false, true⟩, ⟨signerPk, true, false⟩, ⟨program, false, false⟩]
  if ix = OtterVerifyInstructions.Close then base
  else base ++ [⟨systemProgramId, false, false⟩]

/-- The transaction `process_otter_verify_ixs` builds once the signer is
resolved: a single-instruction message paid and signed by the signer. -/
def builtSubmission (params : InputParams) (pda program signerPk : Pubkey)
    (ix : OtterVerifyInstructions) : Submission :=
  ⟨⟨[⟨otterVerifyProgramId, ixDataFor params ix, accountsMetaVec pda signerPk program ix⟩],
    some signerPk⟩, signerPk⟩

/-- Signer resolution inside `process_otter_verify_ixs` (lines 120-124): an
explicit path override loads that keypair, otherwise the config keypair
is used. -/
def resolveProcessSigner (env : Env) (cfgKeypair : Keypair)
    (path : Option String) : Except String Keypair :=
  match path with
  | some p => env.keypairFromPath p
  | none => Except.ok cfgKeypair

/-- The blockhash fetch and send of `process_otter_verify_ixs`
(lines 154-161), given the already-built transaction. -/
def processSendResult (env : Env) (sub : Submission) : Except CliErr (List Nat) :=
  match env.latestBlockhash with
  | Except.error e => Except.error (CliErr.blockhash e)
  | Except.ok bh =>
    match env.sendTx sub bh with
    | Except.error _ => Except.error CliErr.sendFailed
    | Except.ok txid => Except.ok txid

/-- `process_otter_verify_ixs` (lines 111-164).  Returns the outcome and
the list of transactions built (and then signed and submitted); the list
is empty exactly when the function aborted before constructing one.  The
user config is loaded first, with `?`, before the override is consulted. -/
def processOtterVerifyIxs (env : Env) (params : InputParams) (pda program : Pubkey)
    (ix : OtterVerifyInstructions) (path : Option String) :
    Except CliErr (List Nat) × List Submission :=
  match env.userConfig with
  | Except.error e => (Except.error (CliErr.config e), [])
  | Except.ok (cfgKeypair, _cfgUrl) =>
    match resolveProcessSigner env cfgKeypair path with
    | Except.error e => (Except.error (CliErr.keypairLoad e), [])
    | Except.ok signer =>
      let sub := builtSubmission params pda program signer.pubkey ix
      (processSendResult env sub, [sub])

/-- The `InputParams` value assembled in `upload_program` (lines 204-210);
the version is the compile-time package version, an absent commit becomes
the empty string. -/
def uploadInputParams (env : Env) (gitUrl : List Nat) (commit : Option (List Nat))
    (args : List (List Nat)) (slot : Nat) : InputParams :=
  { version := env.pkgVersion, git_url := gitUrl, commit := commit.getD [],
    args := args, deployed_slot := slot }

/-- `upload_program` (lines 166-273).  Returns the outcome and the list of
transactions built.  Control flow follows the source: initial gate prompt,
config load, signer resolution, endpoint resolution, deployed-slot lookup,
derivation of candidates A and B, then the three-way existence branch. -/
def uploadProgram (env : Env) (gitUrl : List Nat) (commit : Option (List Nat))
    (args : List (List Nat)) (programAddress : Pubkey) (connectionUrl : Option String)
    (skipPrompt : Bool) (pathToKeypair : Option String) :
    Except CliErr Unit × List Submission :=
  if skipPrompt || env.prompt1 then
    match env.userConfig with
    | Except.error e => (Except.error (CliErr.config e), [])
    | Except.ok (cfgKeypair, cfgUrl) =>
      let signerPkE : Except String Pubkey :=
        match pathToKeypair with
        | some p => (env.keypairFromPath p).map Keypair.pubkey
        | none => Except.ok cfgKeypair.pubkey
      match signerPkE with
      | Except.error e => (Except.error (CliErr.keypairLoad e), [])
      | Except.ok signerPubkey =>
        let rpcUrl := resolveEndpoint connectionUrl cfgUrl
        match env.lastDeployedSlot rpcUrl programAddress with
        | Except.error e => (Except.error (CliErr.upstreamLookup e), [])
        | Except.ok slot =>
          let params := uploadInputParams env gitUrl commit args slot
          match derivePda env.hash env.isOnCurve
              (attestationSeeds signerPubkey programAddress) otterVerifyProgramId with
          | none => (Except.error CliErr.derivePanic, [])
          | some (pdaA, _) =>
            match derivePda env.hash env.isOnCurve
                (attestationSeeds otterSigner programAddress) otterVerifyProgramId with
            | none => (Except.error CliErr.derivePanic, [])
            | some (pdaB, _) =>
              if env.accountExists pdaA then
                let r := processOtterVerifyIxs env params pdaA programAddress
                  OtterVerifyInstructions.Update pathToKeypair
                (r.1.map fun _ => (), r.2)
              else if env.accountExists pdaB then
                if skipPrompt || env.prompt2 then
                  let r := processOtterVerifyIxs env params pdaA programAddress
                    OtterVerifyInstructions.Initialize pathToKeypair
                  (r.1.map fun _ => (), r.2)
                else (Except.ok (), [])
              else
                let r := processOtterVerifyIxs env params pdaA programAddress
                  OtterVerifyInstructions.Initialize pathToKeypair
                (r.1.map fun _ => (), r.2)
  else (Except.ok (), [])

/-- The all-empty `InputParams` that `process_close` passes to the `Close`
instruction (lines 298-304), carrying only the fetched slot. -/
def closeParams (slot : Nat) : InputParams :=
  { version := [], git_url := [], commit := [], args := [], deployed_slot := slot }

/-- `process_close` (lines 275-321): config load, deployed-slot lookup
against the config RPC URL, candidate-A derivation from the default local
signer, then either the `Close` submission or the no-attestation error
naming the signer and the program. -/
def processClose (env : Env) (programAddress : Pubkey) :
    Except CliErr Unit × List Submission :=
  match env.userConfig with
  | Except.error e => (Except.error (CliErr.config e), [])
  | Except.ok (signer, cfgUrl) =>
    match env.lastDeployedSlot cfgUrl programAddress with
    | Except.error e => (Except.error (CliErr.upstreamLookup e), [])
    | Except.ok slot =>
      match derivePda env.hash env.isOnCurve
          (attestationSeeds signer.pubkey programAddress) otterVerifyProgramId with
      | none => (Except.error CliErr.derivePanic, [])
      | some (pda, _) =>
        if env.accountExists pda then
          let r := processOtterVerifyIxs env (closeParams slot) pda programAddress
            OtterVerifyInstructions.Close none
          (r.1.map fun _ => (), r.2)
        else
          (Except.error (CliErr.noAttestationFound signer.pubkey programAddress), [])

/-- A successful `readBytes` consumes exactly `n` bytes. -/
theorem readBytes_len {n : Nat} {bs v r : List Nat}
    (h : readBytes n bs = some (v, r)) : bs.length = n + r.length := by
  by_cases hle : n ≤ bs.length
  · simp only [readBytes, if_pos hle, Option.some.injEq, Prod.mk.injEq] at h
    obtain ⟨_, hr⟩ := h
    subst hr
    simp only [List.length_drop]
    omega
  · simp [readBytes, hle] at h

/-- A successful `readU32` consumes exactly 4 bytes. -/
theorem readU32_len {bs r : List Nat} {k : Nat}
    (h : readU32 bs = some (k, r)) : bs.length = 4 + r.length := by
  unfold readU32 at h
  cases hb : readBytes 4 bs with
  | none => rw [hb] at h; simp at h
  | some p =>
    rw [hb] at h
    simp only [Option.map_some', Option.some.injEq, Prod.mk.injEq] at h
    obtain ⟨_, hr⟩ := h
    subst hr
    exact readBytes_len hb

/-- A successful `readU64` consumes exactly 8 bytes. -/
theorem readU64_len {bs r : List Nat} {k : Nat}
    (h : readU64 bs = some (k, r)) : bs.length = 8 + r.length := by
  unfold readU64 at h
  cases hb : readBytes 8 bs with
  | none => rw [hb] at h; simp at h
  | some p =>
    rw [hb] at h
    simp only [Option.map_some', Option.some.injEq, Prod.mk.injEq] at h
    obtain ⟨_, hr⟩ := h
    subst hr
    exact readBytes_len hb

/-- A successful `readU8` consumes exactly 1 byte. -/
theorem readU8_len {bs r : List Nat} {k : Nat}
    (h : readU8 bs = some (k, r)) : bs.length = 1 + r.length := by
  unfold readU8 at h
  cases hb : readBytes 1 bs with
  | none => rw [hb] at h; simp at h
  | some p =>
    rw [hb] at h
    simp only [Option.map_some', Option.some.injEq, Prod.mk.injEq] at h
    obtain ⟨_, hr⟩ := h
    subst hr
    exact readBytes_len hb

/-- A successful `readString` consumes at least its 4-byte length prefix. -/
theorem readString_len {bs s r : List Nat}
    (h : readString bs = some (s, r)) : 4 + r.length ≤ bs.length := by
  unfold readString at h
  cases h32 : readU32 bs with
  | none => rw [h32] at h; simp at h
  | some p =>
    rw [h32] at h
    simp only [Option.some_bind] at h
    have h1 := readU32_len h32
    have h2 := readBytes_len h
    omega

/-- `readStrings` never grows the buffer. -/
theorem readStrings_len (n : Nat) : ∀ (bs : List Nat) (ss : List (List Nat)) (r : List Nat),
    readStrings n bs = some (ss, r) → r.length ≤ bs.length := by
  induction n with
  | zero =>
    intro bs ss r h
    simp only [readStrings, Option.some.injEq, Prod.mk.injEq] at h
    rw [← h.2]
  | succ n ih =>
    intro bs ss r h
    simp only [readStrings] at h
    cases hs : readString bs with
    | none => rw [hs] at h; simp at h
    | some p =>
      rw [hs] at h
      simp only [Option.some_bind] at h
      cases hrec : readStrings n p.2 with
      | none => rw [hrec] at h; simp at h
      | some q =>
        rw [hrec] at h
        simp only [Option.map_some', Option.some.injEq, Prod.mk.injEq] at h
        have h1 := readString_len hs
        have h2 := ih p.2 q.1 q.2 (by rw [hrec])
        have hr : r = q.2 := h.2.symm
        subst hr
        omega

/-- A successful `readVecString` consumes at least its 4-byte count. -/
theorem readVecString_len {bs r : List Nat} {ss : List (List Nat)}
    (h : readVecString bs = some (ss, r)) : 4 + r.length ≤ bs.length := by
  unfold readVecString at h
  cases h32 : readU32 bs with
  | none => rw [h32] at h; simp at h
  | some p =>
    rw [h32] at h
    simp only [Option.some_bind] at h
    have h1 := readU32_len h32
    have h2 := readStrings_len p.1 p.2 ss r h
    omega

/-- A successful record deserialization consumes at least 89 bytes:
32 + 32 for the two keys, three 4-byte string prefixes, a 4-byte vector
count, 8 for the slot and 1 for the bump. -/
theorem deserOtterBuildParams_len {bs r : List Nat} {v : OtterBuildParams}
    (h : deserOtterBuildParams bs = some (v, r)) : 89 + r.length ≤ bs.length := by
  unfold deserOtterBuildParams at h
  simp only [Option.bind_eq_some, Option.map_eq_some'] at h
  obtain ⟨p1, h1, p2, h2, p3, h3, p4, h4, p5, h5, p6, h6, p7, h7, p8, h8, heq⟩ := h
  have l1 := readBytes_len h1
  have l2 := readBytes_len h2
  have l3 := readString_len h3
  have l4 := readString_len h4
  have l5 := readString_len h5
  have l6 := readVecString_len h6
  have l7 := readU64_len h7
  have l8 := readU8_len h8
  have hr : r = p8.2 := by
    have := congrArg Prod.snd heq
    simpa using this.symm
  subst hr
  omega

/-- `try_from_slice` succeeds only on buffers of at least 89 bytes. -/
theorem tryFromSlice_len {bs : List Nat} {v : OtterBuildParams}
    (h : tryFromSlice bs = some v) : 89 ≤ bs.length := by
  unfold tryFromSlice at h
  cases hd : deserOtterBuildParams bs with
  | none => rw [hd] at h; simp at h
  | some p =>
    rw [hd] at h
    obtain ⟨w, rest⟩ := p
    cases rest with
    | nil => have := deserOtterBuildParams_len hd; omega
    | cons b t => simp at h

/-- C2 (amended): decoding a buffer shorter than the 89-byte minimum fails
with a decode error (returns `none`, no panic), and during listing an
account whose data still holds the 8-byte account-type tag but fails to
decode is filtered out.  What the original claim adds — that accounts with
fewer than 8 data bytes are also filtered out — is refuted by
`listingPanicsOnShortTag`: there the slice `&data[8..]` panics instead. -/
theorem decodeShortBufferFails (bs : List Nat) (pk : Pubkey) (data : List Nat)
    (rest : List (Pubkey × List Nat))
    (hbs : bs.length < 89) (hdata : 8 ≤ data.length)
    (hfail : tryFromSlice (data.drop 8) = none) :
    tryFromSlice bs = none ∧ collectPdas ((pk, data) :: rest) = collectPdas rest := by
  constructor
  · cases ht : tryFromSlice bs with
    | none => rfl
    | some v => have := tryFromSlice_len ht; omega
  · have hnot : ¬ data.length < 8 := by omega
    simp [collectPdas, hnot, hfail]

/-- A sample public key used in concrete evaluations. -/
def samplePk : Pubkey := ⟨List.replicate 32 3⟩

/-- C2 (counterexample): an account whose data is only 7 bytes long — too
short for the 8-byte account-type tag — makes the listing loop panic
(modelled as `none`) instead of being filtered out into `some []`. -/
theorem listingPanicsOnShortTag :
    collectPdas [(samplePk, [0, 0, 0, 0, 0, 0, 0])] = none ∧
    collectPdas [(samplePk, [0, 0, 0, 0, 0, 0, 0])] ≠ some [] := by
  exact ⟨rfl, by simp [collectPdas]⟩

/-- Witness for `decodeShortBufferFails` at a concrete input. -/
theorem decodeShortBufferFails_witness :
    ([] : List Nat).length < 89 ∧ 8 ≤ (List.replicate 8 (0 : Nat)).length ∧
    tryFromSlice ((List.replicate 8 (0 : Nat)).drop 8) = none ∧
    (tryFromSlice [] = none ∧
      collectPdas [(samplePk, List.replicate 8 (0 : Nat))] = collectPdas []) :=
  ⟨by decide, by decide, by decide,
    decodeShortBufferFails [] samplePk (List.replicate 8 (0 : Nat)) []
      (by decide) (by decide) (by decide)⟩

/-- C3: over any account list in which every account carries at least the
8-byte tag — guaranteed for the collaborator's results by its offset-8
memcmp filter, which only matches accounts with at least 40 data bytes —
the listing returns exactly the decodable accounts, as (address, record)
pairs, in the collaborator's order, and propagates no error for the
accounts that fail to decode. -/
theorem listingKeepsDecodableInOrder (accounts : List (Pubkey × List Nat))
    (h : ∀ a ∈ accounts, 8 ≤ a.2.length) :
    collectPdas accounts =
      some (accounts.filterMap fun a =>
        (tryFromSlice (a.2.drop 8)).map fun p => (a.1, p)) := by
  induction accounts with
  | nil => rfl
  | cons a rest ih =>
    obtain ⟨pk, data⟩ := a
    have h0 : 8 ≤ data.length := h (pk, data) (by simp)
    have hrest : ∀ x ∈ rest, 8 ≤ x.2.length := fun x hx => h x (by simp [hx])
    have hnot : ¬ data.length < 8 := by omega
    cases ht : tryFromSlice (data.drop 8) with
    | none => simp [collectPdas, hnot, ht, ih hrest]
    | some p => simp [collectPdas, hnot, ht, ih hrest]

/-- A 97-byte account image: an 8-byte tag followed by the all-zero record
(empty strings, empty args, slot 0, bump 0), which decodes successfully. -/
def sampleGoodAccount : Pubkey × List Nat := (samplePk, List.replicate 97 0)

/-- A 10-byte account image: the tag is present but the remainder is far
too short to decode. -/
def sampleBadAccount : Pubkey × List Nat := (⟨List.replicate 32 4⟩, List.replicate 10 0)

/-- Witness for `listingKeepsDecodableInOrder` on a concrete mixed list. -/
theorem listingKeepsDecodableInOrder_witness :
    (∀ a ∈ [sampleGoodAccount, sampleBadAccount], 8 ≤ a.2.length) ∧
    collectPdas [sampleGoodAccount, sampleBadAccount] =
      some ([sampleGoodAccount, sampleBadAccount].filterMap fun a =>
        (tryFromSlice (a.2.drop 8)).map fun p => (a.1, p)) :=
  ⟨by decide, listingKeepsDecodableInOrder [sampleGoodAccount, sampleBadAccount] (by decide)⟩

/-- C5: for every `InputParams`, the Initialize and Update payloads are the
kind's fixed 8-byte discriminant followed by the canonical borsh
serialization — the fields in declaration order, each string and the
argument vector carrying a 4-byte little-endian length prefix, the slot as
8 little-endian bytes — while the Close payload is the discriminant alone
and never serializes the params. -/
theorem instructionPayloadLayout (p q : InputParams) :
    (∀ ix : OtterVerifyInstructions, ix.get_discriminant.length = 8) ∧
    ixDataFor p OtterVerifyInstructions.Initialize =
      OtterVerifyInstructions.Initialize.get_discriminant ++
        u32le p.version.length ++ p.version ++
        u32le p.git_url.length ++ p.git_url ++
        u32le p.commit.length ++ p.commit ++
        u32le p.args.length ++ (p.args.map fun s => u32le s.length ++ s).flatten ++
        u64le p.deployed_slot ∧
    ixDataFor p OtterVerifyInstructions.Update =
      OtterVerifyInstructions.Update.get_discriminant ++
        u32le p.version.length ++ p.version ++
        u32le p.git_url.length ++ p.git_url ++
        u32le p.commit.length ++ p.commit ++
        u32le p.args.length ++ (p.args.map fun s => u32le s.length ++ s).flatten ++
        u64le p.deployed_slot ∧
    ixDataFor p OtterVerifyInstructions.Close =
      OtterVerifyInstructions.Close.get_discriminant ∧
    ixDataFor p OtterVerifyInstructions.Close = ixDataFor q OtterVerifyInstructions.Close := by
  refine ⟨fun ix => by cases ix <;> rfl, ?_, ?_, rfl, rfl⟩ <;>
  · simp [ixDataFor, create_ix_data, serializeInputParams, serString, serVecString,
      List.append_assoc]
    rfl

/-- C7: PDA derivation is a pure function of the hash oracle, the curve
oracle, the seed tuple and the deriving program id, so two runs on the
same inputs return the identical (address, bump) pair; moreover the seed
tuple used at every call site is exactly the constant tag
"otter_verify", the seed signer's bytes and the verified program's
bytes, so upload's candidate-A derivation and close's derivation agree
for the same signer and program. -/
theorem deriveDeterministic (hash : List Nat → List Nat) (isOnCurve : List Nat → Bool)
    (signer program : Pubkey) :
    derivePda hash isOnCurve (attestationSeeds signer program) otterVerifyProgramId =
      derivePda hash isOnCurve (attestationSeeds signer program) otterVerifyProgramId ∧
    attestationSeeds signer program =
      [strBytes "otter_verify", signer.bytes, program.bytes] :=
  ⟨rfl, rfl⟩

/-- C8: the endpoint selector maps "m" to the mainnet endpoint, "d" to the
devnet endpoint, "l" to the localhost endpoint, any other non-empty string
verbatim to itself, and an absent selector to the config URL. -/
theorem endpointResolution (cfgUrl : String) :
    resolveEndpoint (some "m") cfgUrl = "https://api.mainnet-beta.solana.com" ∧
    resolveEndpoint (some "d") cfgUrl = "https://api.devnet.solana.com" ∧
    resolveEndpoint (some "l") cfgUrl = "http://localhost:8899" ∧
    (∀ s : String, s ≠ "m" → s ≠ "d" → s ≠ "l" → s ≠ "" →
      resolveEndpoint (some s) cfgUrl = s) ∧
    resolveEndpoint none cfgUrl = cfgUrl := by
  refine ⟨rfl, rfl, rfl, ?_, rfl⟩
  intro s hm hd hl _
  simp [resolveEndpoint, hm, hd, hl]

/-- Witness for `endpointResolution`: the verbatim case on a concrete URL. -/
theorem endpointResolution_witness :
    ("https://rpc.example.org" ≠ "m" ∧ "https://rpc.example.org" ≠ "d" ∧
      "https://rpc.example.org" ≠ "l" ∧ "https://rpc.example.org" ≠ "") ∧
    resolveEndpoint (some "https://rpc.example.org") "cfg" = "https://rpc.example.org" :=
  ⟨⟨by decide, by decide, by decide, by decide⟩,
    (endpointResolution "cfg").2.2.2.1 "https://rpc.example.org"
      (by decide) (by decide) (by decide) (by decide)⟩

/-- C9: `process_otter_verify_ixs` loads the default user config first,
with the `?` operator, before consulting the keypair override, so a
missing or unreadable config aborts the submission with the config error
for every override value, and nothing is built or sent. -/
theorem configRequiredForSubmission (env : Env) (params : InputParams)
    (pda program : Pubkey) (ix : OtterVerifyInstructions) (path : Option String)
    (e : String) (hcfg : env.userConfig = Except.error e) :
    processOtterVerifyIxs env params pda program ix path =
      (Except.error (CliErr.config e), []) := by
  simp [processOtterVerifyIxs, hcfg]

/-- C6: once the config and the signer resolve, `process_otter_verify_ixs`
builds exactly one transaction: a single-instruction message whose
instruction carries the writable record account, the signing signer, the
read-only verified program and — except for `Close` — the read-only system
program, the signer being the only account flagged as signing. -/
theorem submissionAccountShape (env : Env) (params : InputParams)
    (pda program : Pubkey) (ix : OtterVerifyInstructions) (path : Option String)
    (cfgKeypair : Keypair) (cfgUrl : String) (signer : Keypair)
    (hcfg : env.userConfig = Except.ok (cfgKeypair, cfgUrl))
    (hsig : resolveProcessSigner env cfgKeypair path = Except.ok signer) :
    (processOtterVerifyIxs env params pda program ix path).2 =
      [builtSubmission params pda program signer.pubkey ix] ∧
    (builtSubmission params pda program signer.pubkey ix).message.instructions =
      [⟨otterVerifyProgramId, ixDataFor params ix,
        accountsMetaVec pda signer.pubkey program ix⟩] ∧
    (ix ≠ OtterVerifyInstructions.Close →
      accountsMetaVec pda signer.pubkey program ix =
        [⟨pda, false, true⟩, ⟨signer.pubkey, true, false⟩, ⟨program, false, false⟩,
         ⟨systemProgramId, false, false⟩]) ∧
    (ix = OtterVerifyInstructions.Close →
      accountsMetaVec pda signer.pubkey program ix =
        [⟨pda, false, true⟩, ⟨signer.pubkey, true, false⟩, ⟨program, false, false⟩]) ∧
    (accountsMetaVec pda signer.pubkey program ix).filter (fun m => m.is_signer) =
      [⟨signer.pubkey, true, false⟩] := by
  refine ⟨by simp [processOtterVerifyIxs, hcfg, hsig], rfl, ?_, ?_, ?_⟩ <;>
    cases ix <;> simp [accountsMetaVec, List.filter]

/-- C4: when the config and the deployed-slot lookup succeed but the
candidate-A account derived from the default local signer does not exist,
`process_close` fails with the no-attestation error naming the signer and
the program id, and no transaction is built, signed or sent. -/
theorem closeWithoutAttestation (env : Env) (program : Pubkey) (kp : Keypair)
    (cfgUrl : String) (slot : Nat) (pda : Pubkey) (bump : Nat)
    (hcfg : env.userConfig = Except.ok (kp, cfgUrl))
    (hslot : env.lastDeployedSlot cfgUrl program = Except.ok slot)
    (hd : derivePda env.hash env.isOnCurve (attestationSeeds kp.pubkey program)
      otterVerifyProgramId = some (pda, bump))
    (hex : env.accountExists pda = false) :
    processClose env program =
      (Except.error (CliErr.noAttestationFound kp.pubkey program), []) := by
  simp [processClose, hcfg, hslot, hd, hex]

/-- C10: `process_close` performs the deployed-slot lookup before the
candidate-A existence check — a failing lookup aborts close with the
lookup error and nothing built, even though the `Close` payload is only
the discriminant and never contains the fetched slot — so the
no-attestation error can only arise after the lookup succeeded. -/
theorem closeLookupPrecedesExistence (env env2 : Env) (program program2 : Pubkey)
    (kp : Keypair) (cfgUrl e : String) (s p : Pubkey) (l : List Submission)
    (hcfg : env.userConfig = Except.ok (kp, cfgUrl))
    (hfail : env.lastDeployedSlot cfgUrl program = Except.error e)
    (hna : processClose env2 program2 =
      (Except.error (CliErr.noAttestationFound s p), l)) :
    processClose env program = (Except.error (CliErr.upstreamLookup e), []) ∧
    (∀ pr : InputParams, ixDataFor pr OtterVerifyInstructions.Close =
      OtterVerifyInstructions.Close.get_discriminant) ∧
    ∃ kp2 cfgUrl2 slot, env2.userConfig = Except.ok (kp2, cfgUrl2) ∧
      env2.lastDeployedSlot cfgUrl2 program2 = Except.ok slot := by
  refine ⟨by simp [processClose, hcfg, hfail], fun pr => rfl, ?_⟩
  cases henv : env2.userConfig with
  | error e2 => simp [processClose, henv] at hna
  | ok pr =>
    obtain ⟨kp2, cfgUrl2⟩ := pr
    cases hs : env2.lastDeployedSlot cfgUrl2 program2 with
    | error e2 => simp [processClose, henv, hs] at hna
    | ok slot => exact ⟨kp2, cfgUrl2, slot, rfl, hs⟩

/-- A sample default-config keypair for concrete evaluations. -/
def sampleKeypair : Keypair := ⟨⟨List.replicate 32 1⟩⟩

/-- A sample verified-program id for concrete evaluations. -/
def sampleProgram : Pubkey := ⟨List.replicate 32 9⟩

/-- A sample hash oracle: the first 32 bytes of the input. -/
def sampleHash : List Nat → List Nat := fun l => l.take 32

/-- Sample input params for concrete evaluations. -/
def sampleParams : InputParams :=
  { version := strBytes "0.5.0", git_url := strBytes "https://g", commit := [],
    args := [strBytes "--x"], deployed_slot := 7 }

/-- An environment in which every collaborator succeeds and every account
exists. -/
def envAllOk : Env :=
  { userConfig := Except.ok (sampleKeypair, "cfg"),
    keypairFromPath := fun _ => Except.error "unused",
    accountExists := fun _ => true,
    lastDeployedSlot := fun _ _ => Except.ok 7,
    latestBlockhash := Except.ok [1],
    sendTx := fun _ _ => Except.ok [2],
    prompt1 := true,
    prompt2 := true,
    hash := sampleHash,
    isOnCurve := fun _ => false,
    pkgVersion := strBytes "0.5.0" }

/-- `envAllOk` with a missing user config. -/
def envNoConfig : Env := { envAllOk with userConfig := Except.error "missing config" }

/-- `envAllOk` in which no account exists on chain. -/
def envNoAccount : Env := { envAllOk with accountExists := fun _ => false }

/-- `envAllOk` with a failing deployed-slot lookup. -/
def envNoSlot : Env :=
  { envAllOk with lastDeployedSlot := fun _ _ => Except.error "down" }

/-- The candidate-A address `sampleHash` yields for the sample signer and
program at bump 255. -/
def samplePdaA : Pubkey :=
  ⟨sampleHash ((attestationSeeds sampleKeypair.pubkey sampleProgram ++ [[255]]).flatten ++
    otterVerifyProgramId.bytes ++ pdaMarker)⟩

/-- The candidate-B address `sampleHash` yields for the trusted attestor
and the sample program at bump 255. -/
def samplePdaB : Pubkey :=
  ⟨sampleHash ((attestationSeeds otterSigner sampleProgram ++ [[255]]).flatten ++
    otterVerifyProgramId.bytes ++ pdaMarker)⟩

/-- Witness for `configRequiredForSubmission`: a missing config aborts even
with an explicit keypair-path override. -/
theorem configRequiredForSubmission_witness :
    envNoConfig.userConfig = Except.error "missing config" ∧
    processOtterVerifyIxs envNoConfig sampleParams samplePk sampleProgram
      OtterVerifyInstructions.Update (some "override.json") =
      (Except.error (CliErr.config "missing config"), []) :=
  ⟨rfl, configRequiredForSubmission envNoConfig sampleParams samplePk sampleProgram
    OtterVerifyInstructions.Update (some "override.json") "missing config" rfl⟩

/-- Witness for `submissionAccountShape` at the `Update` instruction. -/
theorem submissionAccountShape_witness :
    envAllOk.userConfig = Except.ok (sampleKeypair, "cfg") ∧
    resolveProcessSigner envAllOk sampleKeypair none = Except.ok sampleKeypair ∧
    ((processOtterVerifyIxs envAllOk sampleParams samplePk sampleProgram
        OtterVerifyInstructions.Update none).2 =
      [builtSubmission sampleParams samplePk sampleProgram sampleKeypair.pubkey
        OtterVerifyInstructions.Update] ∧
     (builtSubmission sampleParams samplePk sampleProgram sampleKeypair.pubkey
        OtterVerifyInstructions.Update).message.instructions =
      [⟨otterVerifyProgramId, ixDataFor sampleParams OtterVerifyInstructions.Update,
        accountsMetaVec samplePk sampleKeypair.pubkey sampleProgram
          OtterVerifyInstructions.Update⟩] ∧
     (OtterVerifyInstructions.Update ≠ OtterVerifyInstructions.Close →
      accountsMetaVec samplePk sampleKeypair.pubkey sampleProgram
          OtterVerifyInstructions.Update =
        [⟨samplePk, false, true⟩, ⟨sampleKeypair.pubkey, true, false⟩,
         ⟨sampleProgram, false, false⟩, ⟨systemProgramId, false, false⟩]) ∧
     (OtterVerifyInstructions.Update = OtterVerifyInstructions.Close →
      accountsMetaVec samplePk sampleKeypair.pubkey sampleProgram
          OtterVerifyInstructions.Update =
        [⟨samplePk, false, true⟩, ⟨sampleKeypair.pubkey, true, false⟩,
         ⟨sampleProgram, false, false⟩]) ∧
     (accountsMetaVec samplePk sampleKeypair.pubkey sampleProgram
        OtterVerifyInstructions.Update).filter (fun m => m.is_signer) =
      [⟨sampleKeypair.pubkey, true, false⟩]) :=
  ⟨rfl, rfl, submissionAccountShape envAllOk sampleParams samplePk sampleProgram
    OtterVerifyInstructions.Update none sampleKeypair "cfg" sampleKeypair rfl rfl⟩

/-- Witness for `closeWithoutAttestation` in the no-account environment. -/
theorem closeWithoutAttestation_witness :
    envNoAccount.userConfig = Except.ok (sampleKeypair, "cfg") ∧
    envNoAccount.lastDeployedSlot "cfg" sampleProgram = Except.ok 7 ∧
    derivePda envNoAccount.hash envNoAccount.isOnCurve
      (attestationSeeds sampleKeypair.pubkey sampleProgram) otterVerifyProgramId =
      some (samplePdaA, 255) ∧
    envNoAccount.accountExists samplePdaA = false ∧
    processClose envNoAccount sampleProgram =
      (Except.error (CliErr.noAttestationFound sampleKeypair.pubkey sampleProgram), []) :=
  ⟨rfl, rfl, rfl, rfl, closeWithoutAttestation envNoAccount sampleProgram sampleKeypair
    "cfg" 7 samplePdaA 255 rfl rfl rfl rfl⟩

/-- Witness for `closeLookupPrecedesExistence`: a failing lookup in one
environment, a concrete no-attestation outcome in another. -/
theorem closeLookupPrecedesExistence_witness :
    envNoSlot.userConfig = Except.ok (sampleKeypair, "cfg") ∧
    envNoSlot.lastDeployedSlot "cfg" sampleProgram = Except.error "down" ∧
    processClose envNoAccount sampleProgram =
      (Except.error (CliErr.noAttestationFound sampleKeypair.pubkey sampleProgram), []) ∧
    (processClose envNoSlot sampleProgram =
      (Except.error (CliErr.upstreamLookup "down"), []) ∧
     (∀ pr : InputParams, ixDataFor pr OtterVerifyInstructions.Close =
       OtterVerifyInstructions.Close.get_discriminant) ∧
     ∃ kp2 cfgUrl2 slot, envNoAccount.userConfig = Except.ok (kp2, cfgUrl2) ∧
       envNoAccount.lastDeployedSlot cfgUrl2 sampleProgram = Except.ok slot) :=
  ⟨rfl, rfl, rfl, closeLookupPrecedesExistence envNoSlot envNoAccount sampleProgram
    sampleProgram sampleKeypair "cfg" "down" sampleKeypair.pubkey sampleProgram []
    rfl rfl rfl⟩

/-- C1: the upload decision table.  Once the operation proceeds past the
initial confirmation gate and the config, lookup and derivations succeed,
then: if candidate A exists the single built transaction is `Update`
targeting candidate A, whatever candidate B and the prompts; else if
candidate B exists and either skipPrompt is set or the user confirms, it
is `Initialize` targeting candidate A; else if candidate B exists and the
user declines, nothing is submitted and the call returns success; and if
neither candidate exists it is `Initialize` targeting candidate A. -/
theorem uploadDecisionTable (env : Env) (gitUrl : List Nat) (commit : Option (List Nat))
    (args : List (List Nat)) (programAddress : Pubkey) (connectionUrl : Option String)
    (skipPrompt : Bool) (kp : Keypair) (cfgUrl : String) (slot : Nat)
    (pdaA pdaB : Pubkey) (bA bB : Nat)
    (hgate : skipPrompt = true ∨ env.prompt1 = true)
    (hcfg : env.userConfig = Except.ok (kp, cfgUrl))
    (hslot : env.lastDeployedSlot (resolveEndpoint connectionUrl cfgUrl) programAddress =
      Except.ok slot)
    (hdA : derivePda env.hash env.isOnCurve (attestationSeeds kp.pubkey programAddress)
      otterVerifyProgramId = some (pdaA, bA))
    (hdB : derivePda env.hash env.isOnCurve (attestationSeeds otterSigner programAddress)
      otterVerifyProgramId = some (pdaB, bB)) :
    (env.accountExists pdaA = true →
      (uploadProgram env gitUrl commit args programAddress connectionUrl skipPrompt none).2 =
        [builtSubmission (uploadInputParams env gitUrl commit args slot) pdaA programAddress
          kp.pubkey OtterVerifyInstructions.Update]) ∧
    (env.accountExists pdaA = false → env.accountExists pdaB = true →
      (skipPrompt = true ∨ env.prompt2 = true) →
      (uploadProgram env gitUrl commit args programAddress connectionUrl skipPrompt none).2 =
        [builtSubmission (uploadInputParams env gitUrl commit args slot) pdaA programAddress
          kp.pubkey OtterVerifyInstructions.Initialize]) ∧
    (env.accountExists pdaA = false → env.accountExists pdaB = true →
      skipPrompt = false → env.prompt2 = false →
      uploadProgram env gitUrl commit args programAddress connectionUrl skipPrompt none =
        (Except.ok (), [])) ∧
    (env.accountExists pdaA = false → env.accountExists pdaB = false →
      (uploadProgram env gitUrl commit args programAddress connectionUrl skipPrompt none).2 =
        [builtSubmission (uploadInputParams env gitUrl commit args slot) pdaA programAddress
          kp.pubkey OtterVerifyInstructions.Initialize]) := by
  have hg : (skipPrompt || env.prompt1) = true := by
    rcases hgate with h | h <;> simp [h]
  refine ⟨?_, ?_, ?_, ?_⟩
  · intro hA
    simp [uploadProgram, hg, hcfg, hslot, hdA, hdB, hA, processOtterVerifyIxs,
      resolveProcessSigner]
  · intro hA hB hp
    have hp2 : (skipPrompt || env.prompt2) = true := by rcases hp with h | h <;> simp [h]
    simp [uploadProgram, hg, hcfg, hslot, hdA, hdB, hA, hB, hp2, processOtterVerifyIxs,
      resolveProcessSigner]
  · intro hA hB hsp hp2
    simp [uploadProgram, hg, hcfg, hslot, hdA, hdB, hA, hB, hsp, hp2]
  · intro hA hB
    simp [uploadProgram, hg, hcfg, hslot, hdA, hdB, hA, hB, processOtterVerifyIxs,
      resolveProcessSigner]

/-- Witness for `uploadDecisionTable` in the all-accounts-exist
environment: the first table row fires with `Update` on candidate A. -/
theorem uploadDecisionTable_witness :
    (true = true ∨ envAllOk.prompt1 = true) ∧
    envAllOk.userConfig = Except.ok (sampleKeypair, "cfg") ∧
    envAllOk.lastDeployedSlot (resolveEndpoint none "cfg") sampleProgram = Except.ok 7 ∧
    derivePda envAllOk.hash envAllOk.isOnCurve
      (attestationSeeds sampleKeypair.pubkey sampleProgram) otterVerifyProgramId =
      some (samplePdaA, 255) ∧
    derivePda envAllOk.hash envAllOk.isOnCurve
      (attestationSeeds otterSigner sampleProgram) otterVerifyProgramId =
      some (samplePdaB, 255) ∧
    ((envAllOk.accountExists samplePdaA = true →
      (uploadProgram envAllOk (strBytes "https://g") none [] sampleProgram none true none).2 =
        [builtSubmission (uploadInputParams envAllOk (strBytes "https://g") none [] 7)
          samplePdaA sampleProgram sampleKeypair.pubkey OtterVerifyInstructions.Update]) ∧
     (envAllOk.accountExists samplePdaA = false → envAllOk.accountExists samplePdaB = true →
      (true = true ∨ envAllOk.prompt2 = true) →
      (uploadProgram envAllOk (strBytes "https://g") none [] sampleProgram none true none).2 =
        [builtSubmission (uploadInputParams envAllOk (strBytes "https://g") none [] 7)
          samplePdaA sampleProgram sampleKeypair.pubkey OtterVerifyInstructions.Initialize]) ∧
     (envAllOk.accountExists samplePdaA = false → envAllOk.accountExists samplePdaB = true →
      true = false → envAllOk.prompt2 = false →
      uploadProgram envAllOk (strBytes "https://g") none [] sampleProgram none true none =
        (Except.ok (), [])) ∧
     (envAllOk.accountExists samplePdaA = false → envAllOk.accountExists samplePdaB = false →
      (uploadProgram envAllOk (strBytes "https://g") none [] sampleProgram none true none).2 =
        [builtSubmission (uploadInputParams envAllOk (strBytes "https://g") none [] 7)
          samplePdaA sampleProgram sampleKeypair.pubkey OtterVerifyInstructions.Initialize])) :=
  ⟨Or.inl rfl, rfl, rfl, rfl, rfl,
    uploadDecisionTable envAllOk (strBytes "https://g") none [] sampleProgram none true
      sampleKeypair "cfg" 7 samplePdaA samplePdaB 255 255 (Or.inl rfl) rfl rfl rfl rfl⟩

end SolanaVerify
